import Mathlib

/-!
Shallow embedding of the memref descriptor bridge module
(`np_to_memref.py`): the ctypes scalar layouts, the descriptor struct
layout builders, and the bidirectional conversions between host numpy
arrays and ranked/unranked memref descriptors.

Arrays are modelled by their observable data: logical dtype, shape,
per-dimension byte strides, and the base address of the backing
buffer.  Addresses and ctypes integer fields are modelled as
unbounded `Int`; the 64-bit wire format of a descriptor is modelled
explicitly (two's-complement words) where the code reinterprets a
descriptor through a pointer cast.  Python exceptions are modelled by
an explicit error type through `Except`.
-/

/-- Model of the ctypes types used by the module: the primitive
scalars of a 64-bit platform, the tagged wrapper structs the module
defines for complex and narrow-float element types (`C128`, `C64`,
`F16`, `BF16`, `F8E5M2`), ctypes pointers, and fixed-length ctypes
arrays. -/
inductive CTy where
  | c_longlong
  | c_long
  | c_int
  | c_short
  | c_byte
  | c_double
  | c_float
  | C128
  | C64
  | F16
  | BF16
  | F8E5M2
  | ptr (t : CTy)
  | carray (t : CTy) (n : Nat)
deriving DecidableEq

/-- ctypes.sizeof on a 64-bit platform.  `C128`, `C64`, `F16`, `BF16`
and `F8E5M2` are the module's own ctypes Structures (two doubles, two
floats, one int16, one int16, one int8 respectively). -/
def sizeofC : CTy → Nat
  | .c_longlong => 8
  | .c_long => 8
  | .c_int => 4
  | .c_short => 2
  | .c_byte => 1
  | .c_double => 8
  | .c_float => 4
  | .C128 => 16
  | .C64 => 8
  | .F16 => 2
  | .BF16 => 2
  | .F8E5M2 => 1
  | .ptr _ => 8
  | .carray t n => n * sizeofC t

/-- ctypes.alignment on a 64-bit platform (natural alignment). -/
def alignofC : CTy → Nat
  | .c_longlong => 8
  | .c_long => 8
  | .c_int => 4
  | .c_short => 2
  | .c_byte => 1
  | .c_double => 8
  | .c_float => 4
  | .C128 => 8
  | .C64 => 4
  | .F16 => 2
  | .BF16 => 2
  | .F8E5M2 => 1
  | .ptr _ => 8
  | .carray t _ => alignofC t

/-- Round `n` up to the next multiple of `a` (no-op for `a = 0`). -/
def alignTo (n a : Nat) : Nat := if a = 0 then n else ((n + a - 1) / a) * a

/-- A ctypes Structure type is determined by its ordered field list. -/
abbrev StructTy := List (String × CTy)

/-- Offsets of the fields of a ctypes Structure laid out with natural
alignment, starting from byte offset `off`. -/
def structLayoutAux : Nat → StructTy → List (String × Nat × CTy)
  | _, [] => []
  | off, (f, t) :: rest =>
    (f, alignTo off (alignofC t), t) ::
      structLayoutAux (alignTo off (alignofC t) + sizeofC t) rest

/-- Byte offset and type of every field of a ctypes Structure. -/
def structLayout (fields : StructTy) : List (String × Nat × CTy) :=
  structLayoutAux 0 fields

/-- Offset of the first byte past the last field of a ctypes
Structure laid out with natural alignment. -/
def structEnd : Nat → StructTy → Nat
  | off, [] => off
  | off, (_, t) :: rest => structEnd (alignTo off (alignofC t) + sizeofC t) rest

/-- Alignment of a ctypes Structure: maximum field alignment. -/
def structAlign (fields : StructTy) : Nat :=
  fields.foldr (fun f acc => max (alignofC f.2) acc) 1

/-- ctypes.sizeof of the Structure type (end offset padded up to the
struct alignment). -/
def structSize (fields : StructTy) : Nat :=
  alignTo (structEnd 0 fields) (structAlign fields)

/-- Struct type built by `make_nd_memref_descriptor(rank, dtype)`:
allocated / aligned / offset / shape / strides, in this order. -/
def make_nd_memref_descriptor (rank : Nat) (dtype : CTy) : StructTy :=
  [("allocated", .c_longlong),
   ("aligned", .ptr dtype),
   ("offset", .c_longlong),
   ("shape", .carray .c_longlong rank),
   ("strides", .carray .c_longlong rank)]

/-- Struct type built by `make_zero_d_memref_descriptor(dtype)`:
allocated / aligned / offset only. -/
def make_zero_d_memref_descriptor (dtype : CTy) : StructTy :=
  [("allocated", .c_longlong),
   ("aligned", .ptr dtype),
   ("offset", .c_longlong)]

/-- Struct type of `UnrankedMemRefDescriptor`: a rank and an opaque
pointer to a ranked descriptor. -/
def unrankedMemRefDescriptorTy : StructTy :=
  [("rank", .c_longlong), ("descriptor", .ptr .c_byte)]

/-- Logical numpy dtypes that can reach the module, plus the
structured dtypes numpy derives from the module's tagged ctypes
Structures (these are the dtypes of the intermediate arrays built by
`np.ctypeslib.as_array` over a pointer to a tagged struct). -/
inductive NpDtype where
  | complex128
  | complex64
  | float16
  | bfloat16
  | float8_e5m2
  | float64
  | float32
  | int64
  | int32
  | int16
  | int8
  | structC128
  | structC64
  | structF16
  | structBF16
  | structF8E5M2
deriving DecidableEq

/-- numpy itemsize of each dtype. -/
def itemsizeD : NpDtype → Nat
  | .complex128 => 16
  | .complex64 => 8
  | .float16 => 2
  | .bfloat16 => 2
  | .float8_e5m2 => 1
  | .float64 => 8
  | .float32 => 4
  | .int64 => 8
  | .int32 => 4
  | .int16 => 2
  | .int8 => 1
  | .structC128 => 16
  | .structC64 => 8
  | .structF16 => 2
  | .structBF16 => 2
  | .structF8E5M2 => 1

/-- Python exceptions observable from the module.
`assertionError` carries the assertion message (the module's two
asserts name the missing ml_dtypes package); `attributeError` carries
the missing field name; `notImplementedError` is what
`np.ctypeslib.as_ctypes_type` raises for a dtype it does not know;
`undefinedBehavior` marks a pointer cast that reads past the end of
the pointed-to descriptor (a caller-contract violation the real code
does not detect). -/
inductive PyErr where
  | notImplementedError
  | attributeError (field : String)
  | assertionError (msg : String)
  | undefinedBehavior
deriving DecidableEq

/-- Message of the assert guarding the bfloat16 reverse mapping. -/
def bf16InstallMsg : String :=
  "bfloat16 requires the ml_dtypes package, please run:\n\npip install ml_dtypes\n"

/-- Message of the assert guarding the float8_e5m2 reverse mapping. -/
def f8InstallMsg : String :=
  "float8_e5m2 requires the ml_dtypes package, please run:\n\npip install ml_dtypes\n"

/-- Model of `np.ctypeslib.as_ctypes_type` (external numpy helper):
maps native numeric dtypes to the corresponding ctypes scalar, maps a
structured dtype back to an equivalent ctypes Structure, and raises
NotImplementedError on dtypes it does not recognize (in particular
the ml_dtypes extension dtypes). -/
def as_ctypes_type : NpDtype → Except PyErr CTy
  | .float64 => .ok .c_double
  | .float32 => .ok .c_float
  | .int64 => .ok .c_long
  | .int32 => .ok .c_int
  | .int16 => .ok .c_short
  | .int8 => .ok .c_byte
  | .structC128 => .ok .C128
  | .structC64 => .ok .C64
  | .structF16 => .ok .F16
  | .structBF16 => .ok .BF16
  | .structF8E5M2 => .ok .F8E5M2
  | _ => .error .notImplementedError

/-- `as_ctype(dtp)`: the forward scalar-type mapping.  `mlAvail`
models whether the optional ml_dtypes registry imported at module
load is present; when it is absent the bfloat16/float8_e5m2 guards
are not even compared and the call falls through to
`np.ctypeslib.as_ctypes_type`. -/
def as_ctype (mlAvail : Bool) : NpDtype → Except PyErr CTy
  | .complex128 => .ok .C128
  | .complex64 => .ok .C64
  | .float16 => .ok .F16
  | .bfloat16 => if mlAvail then .ok .BF16 else as_ctypes_type .bfloat16
  | .float8_e5m2 => if mlAvail then .ok .F8E5M2 else as_ctypes_type .float8_e5m2
  | d => as_ctypes_type d

/-- Observable data of a numpy ndarray (or of a non-owning view):
logical dtype, shape, per-dimension byte strides, and base address of
the first element.  Rank is the length of `shape`. -/
structure NDArray where
  dtype : NpDtype
  shape : List Int
  strides : List Int
  data : Int
deriving DecidableEq

/-- `to_numpy(array)`: the reverse scalar-type mapping.  A `view`
re-types the same buffer without moving data, so only the dtype
changes.  The two asserts fire exactly when a BF16/F8E5M2-layout
array is seen while the ml_dtypes registry is absent. -/
def to_numpy (mlAvail : Bool) (a : NDArray) : Except PyErr NDArray :=
  match a.dtype with
  | .structC128 => .ok { a with dtype := .complex128 }
  | .structC64 => .ok { a with dtype := .complex64 }
  | .structF16 => .ok { a with dtype := .float16 }
  | .structBF16 =>
    if mlAvail then .ok { a with dtype := .bfloat16 }
    else .error (.assertionError bf16InstallMsg)
  | .structF8E5M2 =>
    if mlAvail then .ok { a with dtype := .float8_e5m2 }
    else .error (.assertionError f8InstallMsg)
  | _ => .ok a

/-- Dtype numpy assigns to an array built by `np.ctypeslib.as_array`
over a pointer to the given element ctype.  Only the element ctypes
that `as_ctype` can produce are mapped; a pointer or array pointee
never occurs in the module and is mapped to an error. -/
def ctypeToNp : CTy → Except PyErr NpDtype
  | .C128 => .ok .structC128
  | .C64 => .ok .structC64
  | .F16 => .ok .structF16
  | .BF16 => .ok .structBF16
  | .F8E5M2 => .ok .structF8E5M2
  | .c_double => .ok .float64
  | .c_float => .ok .float32
  | .c_long => .ok .int64
  | .c_longlong => .ok .int64
  | .c_int => .ok .int32
  | .c_short => .ok .int16
  | .c_byte => .ok .int8
  | .ptr _ => .error .notImplementedError
  | .carray _ _ => .error .notImplementedError

/-- A populated memref descriptor instance: either an instance of the
zero-rank struct (allocated, aligned, offset) or of the rank-`rank`
struct (adding shape and strides, each a list of `rank` c_longlong
values).  `ctp` is the element ctype the `aligned` pointer is typed
with. -/
inductive MemRef where
  | zeroD (ctp : CTy) (allocated aligned offset : Int)
  | nd (ctp : CTy) (rank : Nat) (allocated aligned offset : Int)
      (shape strides : List Int)
deriving DecidableEq

/-- A typed ctypes pointer: the pointee type and the held address. -/
structure CPtr where
  ctp : CTy
  addr : Int
deriving DecidableEq

/-- `move_aligned_ptr_by_offset(aligned_ptr, offset)`: reads the
address out of the pointer, shifts it by `offset` times the size of
the pointee type, and casts the result back to the same pointer
type. -/
def move_aligned_ptr_by_offset (aligned_ptr : CPtr) (offset : Int) : CPtr :=
  { ctp := aligned_ptr.ctp
    addr := aligned_ptr.addr + offset * (sizeofC aligned_ptr.ctp : Int) }

/-- An `UnrankedMemRefDescriptor` instance: the declared rank (a
c_longlong field) and the descriptor the opaque `descriptor` pointer
points at. -/
structure UnrankedMemRef where
  rank : Int
  descriptor : MemRef
deriving DecidableEq

/-- `get_ranked_memref_descriptor(nparray)`: maps the dtype, then
fills a zero-rank descriptor (rank 0) or a rank-`ndim` descriptor.
`allocated` and `aligned` both receive the buffer base address,
`offset` is 0, `shape` is copied, and each byte stride is
floor-divided (Python `//`) by the itemsize to store element-unit
strides. -/
def get_ranked_memref_descriptor (mlAvail : Bool) (a : NDArray) :
    Except PyErr MemRef :=
  match as_ctype mlAvail a.dtype with
  | .error e => .error e
  | .ok ctp =>
    if a.shape.length = 0 then
      .ok (.zeroD ctp a.data a.data 0)
    else
      .ok (.nd ctp a.shape.length a.data a.data 0 a.shape
        (a.strides.map (fun s => Int.fdiv s (itemsizeD a.dtype : Int))))

/-- `get_unranked_memref_descriptor(nparray)`: builds the ranked
descriptor and wraps it with the rank behind an opaque pointer. -/
def get_unranked_memref_descriptor (mlAvail : Bool) (a : NDArray) :
    Except PyErr UnrankedMemRef :=
  match get_ranked_memref_descriptor mlAvail a with
  | .error e => .error e
  | .ok x => .ok { rank := (a.shape.length : Int), descriptor := x }

/-- `ranked_memref_to_numpy(ranked_memref)`: shifts the aligned
pointer by `offset` elements, views the target as a C array of the
descriptor shape, then rebuilds the strided view with byte strides
`strides * itemsize` and re-applies the reverse scalar mapping.
Reading `.shape` on a zero-rank descriptor instance raises
AttributeError because the zero-rank struct has no such field. -/
def ranked_memref_to_numpy (mlAvail : Bool) (d : MemRef) :
    Except PyErr NDArray :=
  match d with
  | .zeroD _ _ _ _ => .error (.attributeError "shape")
  | .nd ctp _ _ aligned offset shape strides =>
    let content_ptr := move_aligned_ptr_by_offset ⟨ctp, aligned⟩ offset
    match ctypeToNp ctp with
    | .error e => .error e
    | .ok npdt =>
      to_numpy mlAvail
        { dtype := npdt
          shape := shape
          strides := strides.map (fun s => s * (sizeofC ctp : Int))
          data := content_ptr.addr }

/-- Bit pattern of a c_longlong (or of a pointer) holding `i`: the
value reduced to a 64-bit two's-complement word. -/
def u64 (i : Int) : Nat := (i % 18446744073709551616).toNat

/-- Signed value read back from a 64-bit word. -/
def fromSigned (w : Nat) : Int :=
  if w < 9223372036854775808 then (w : Int) else (w : Int) - 18446744073709551616

/-- The 64-bit words a populated descriptor instance occupies in
memory, in field order.  Every field of both descriptor structs is an
8-byte value at a multiple-of-8 offset (see `structLayout`), so the
byte image is exactly this word sequence. -/
def descriptorWords : MemRef → List Nat
  | .zeroD _ a al off => [u64 a, u64 al, u64 off]
  | .nd _ _ a al off shape strides =>
    u64 a :: u64 al :: u64 off :: (shape.map u64 ++ strides.map u64)

/-- Reading a descriptor's memory through the
`make_nd_memref_descriptor(rank, ·)` layout: words 0,1,2 are
allocated / aligned / offset, the next `rank` words are the shape and
the `rank` after those are the strides.  The aligned pointer is read
as an address (unsigned), the others as signed c_longlong.  Reading
past the stored words is undefined behavior. -/
def readNdFields (rank : Nat) (ws : List Nat) :
    Option (Int × Int × Int × List Int × List Int) :=
  if 3 + rank + rank ≤ ws.length then
    some (fromSigned (ws.getD 0 0),
          ((ws.getD 1 0 : Nat) : Int),
          fromSigned (ws.getD 2 0),
          ((ws.drop 3).take rank).map fromSigned,
          ((ws.drop (3 + rank)).take rank).map fromSigned)
  else none

/-- `unranked_memref_to_numpy(unranked_memref, np_dtype)`: maps the
supplied logical dtype, casts the opaque descriptor pointer to the
rank-`rank` descriptor layout, reads the fields back through that
layout, and proceeds exactly as the ranked reverse conversion. -/
def unranked_memref_to_numpy (mlAvail : Bool) (um : UnrankedMemRef)
    (np_dtype : NpDtype) : Except PyErr NDArray :=
  match as_ctype mlAvail np_dtype with
  | .error e => .error e
  | .ok ctp =>
    match readNdFields um.rank.toNat (descriptorWords um.descriptor) with
    | none => .error .undefinedBehavior
    | some (_allocated, aligned, offset, shape, strides) =>
      let content_ptr := move_aligned_ptr_by_offset ⟨ctp, aligned⟩ offset
      match ctypeToNp ctp with
      | .error e => .error e
      | .ok npdt =>
        to_numpy mlAvail
          { dtype := npdt
            shape := shape
            strides := strides.map (fun s => s * (sizeofC ctp : Int))
            data := content_ptr.addr }

/-- Forward conversion followed by the ranked reverse conversion. -/
def rankedRoundTrip (mlAvail : Bool) (a : NDArray) : Except PyErr NDArray :=
  match get_ranked_memref_descriptor mlAvail a with
  | .error e => .error e
  | .ok d => ranked_memref_to_numpy mlAvail d

/-- Forward unranked conversion followed by the unranked reverse
conversion at a caller-supplied logical dtype. -/
def unrankedRoundTrip (mlAvail : Bool) (a : NDArray) (np_dtype : NpDtype) :
    Except PyErr NDArray :=
  match get_unranked_memref_descriptor mlAvail a with
  | .error e => .error e
  | .ok um => unranked_memref_to_numpy mlAvail um np_dtype

/-- A dtype is a supported logical element type under a given
ml_dtypes availability: every native/complex/float16 dtype always,
the two ml_dtypes extension dtypes only when the registry is present,
and never the intermediate structured dtypes (which are layouts, not
logical element types). -/
def isLogicalSupported (mlAvail : Bool) : NpDtype → Bool
  | .complex128 => true
  | .complex64 => true
  | .float16 => true
  | .bfloat16 => mlAvail
  | .float8_e5m2 => mlAvail
  | .float64 => true
  | .float32 => true
  | .int64 => true
  | .int32 => true
  | .int16 => true
  | .int8 => true
  | _ => false

/-- Signed 64-bit range, the values a c_longlong field can hold. -/
abbrev inI64 (i : Int) : Prop :=
  -9223372036854775808 ≤ i ∧ i < 9223372036854775808

deriving instance DecidableEq for Except

/-- Every supported dtype has a positive itemsize. -/
theorem itemsizeD_pos (d : NpDtype) : 0 < itemsizeD d := by
  cases d <;> decide

/-- Multiplying the element-unit strides back by the element size
recovers the byte strides exactly when each byte stride is a multiple
of the element size. -/
theorem map_fdiv_mul_cancel (m : Int) (hm : 0 < m) (l : List Int)
    (h : ∀ s ∈ l, m ∣ s) :
    (l.map (fun s => Int.fdiv s m)).map (fun s => s * m) = l := by
  induction l with
  | nil => rfl
  | cons s l ih =>
    have hd : m ∣ s := h s (by simp)
    have ht := ih (fun x hx => h x (by simp [hx]))
    simp only [List.map_cons] at ht ⊢
    rw [ht, Int.fdiv_eq_ediv _ (Int.le_of_lt hm), Int.ediv_mul_cancel hd]

/-- A signed 64-bit value survives the store/load through its
two's-complement word. -/
theorem fromSigned_u64 (i : Int) (h : inI64 i) : fromSigned (u64 i) = i := by
  simp only [inI64] at h
  simp only [u64, fromSigned]
  split <;> omega

/-- An address below 2^64 survives the store/load through a pointer
field unchanged. -/
theorem u64_cast (i : Int) (h1 : 0 ≤ i) (h2 : i < 18446744073709551616) :
    ((u64 i : Nat) : Int) = i := by
  simp only [u64]
  omega

/-- Elementwise version of `fromSigned_u64` for a whole field
array. -/
theorem map_fromSigned_u64 (l : List Int) (h : ∀ s ∈ l, inI64 s) :
    (l.map u64).map fromSigned = l := by
  induction l with
  | nil => rfl
  | cons s l ih =>
    simp only [List.map_cons, ih (fun x hx => h x (by simp [hx])),
      fromSigned_u64 s (h s (by simp))]

/-- Floor division by a positive divisor keeps a value inside the
signed 64-bit range. -/
theorem fdiv_inI64 (m s : Int) (hm : 0 < m) (h : inI64 s) :
    inI64 (Int.fdiv s m) := by
  rw [Int.fdiv_eq_ediv _ (Int.le_of_lt hm)]
  obtain ⟨h1, h2⟩ := h
  constructor
  · rcases le_or_lt 0 s with hs | hs
    · have := Int.ediv_nonneg hs (Int.le_of_lt hm)
      omega
    · have hle : s ≤ s / m := by
        rw [Int.le_ediv_iff_mul_le hm]
        have hs0 : s ≤ 0 := Int.le_of_lt hs
        have h1m : (1 : Int) ≤ m := hm
        nlinarith
      omega
  · rcases le_or_lt 0 s with hs | hs
    · have := Int.ediv_le_self m hs
      omega
    · have hlt : s / m < 1 := by
        rw [Int.ediv_lt_iff_lt_mul hm]
        omega
      omega

/-- Reading a rank-`r` descriptor instance back through the
`make_nd_memref_descriptor(r, ·)` layout recovers every field, as
long as each stored value fits its 64-bit field. -/
theorem readNdFields_nd (ctp : CTy) (r : Nat) (al ag off : Int)
    (sh st : List Int)
    (hshl : sh.length = r) (hstl : st.length = sh.length)
    (hal : inI64 al) (hag : 0 ≤ ag ∧ ag < 18446744073709551616)
    (hoff : inI64 off)
    (hsh : ∀ s ∈ sh, inI64 s) (hstr : ∀ s ∈ st, inI64 s) :
    readNdFields r (descriptorWords (.nd ctp r al ag off sh st)) =
      some (al, ag, off, sh, st) := by
  subst hshl
  have hws : descriptorWords (MemRef.nd ctp sh.length al ag off sh st) =
      u64 al :: u64 ag :: u64 off :: (sh.map u64 ++ st.map u64) := rfl
  have hlen : 3 + sh.length + sh.length ≤
      (u64 al :: u64 ag :: u64 off :: (sh.map u64 ++ st.map u64)).length := by
    simp only [List.length_cons, List.length_append, List.length_map, hstl]
    omega
  have hdrop3 :
      List.drop 3 (u64 al :: u64 ag :: u64 off :: (sh.map u64 ++ st.map u64)) =
        sh.map u64 ++ st.map u64 := rfl
  have hdropn :
      List.drop (3 + sh.length)
        (u64 al :: u64 ag :: u64 off :: (sh.map u64 ++ st.map u64)) =
        st.map u64 := by
    rw [← List.drop_drop, hdrop3]
    exact List.drop_left' (by simp)
  have htake1 : (sh.map u64 ++ st.map u64).take sh.length = sh.map u64 :=
    List.take_left' (by simp)
  have htake2 : (st.map u64).take sh.length = st.map u64 := by
    rw [show sh.length = (st.map u64).length by simp [hstl], List.take_length]
  simp only [readNdFields, hws]
  rw [if_pos hlen]
  simp only [List.getD_cons_zero, List.getD_cons_succ]
  rw [hdrop3, hdropn, htake1, htake2, fromSigned_u64 al hal,
    fromSigned_u64 off hoff, u64_cast ag hag.1 hag.2,
    map_fromSigned_u64 sh hsh, map_fromSigned_u64 st hstr]

/-- Generic ranked round trip: whenever the forward dtype mapping
produces `ctp`, numpy types the intermediate array as `npdt`, the
element sizes agree, the byte strides are multiples of the element
size and the reverse scalar mapping brings `npdt` back to the
original dtype, the ranked round trip reproduces the array. -/
theorem roundTrip_case (mlAvail : Bool) (dt npdt : NpDtype) (ctp : CTy)
    (sh st : List Int) (data : Int)
    (h1 : 1 ≤ sh.length)
    (hc : as_ctype mlAvail dt = .ok ctp)
    (hn : ctypeToNp ctp = .ok npdt)
    (hs : sizeofC ctp = itemsizeD dt)
    (hdvd : ∀ s ∈ st, ((itemsizeD dt : Nat) : Int) ∣ s)
    (hback : to_numpy mlAvail ⟨npdt, sh, st, data⟩ = .ok ⟨dt, sh, st, data⟩) :
    rankedRoundTrip mlAvail ⟨dt, sh, st, data⟩ = .ok ⟨dt, sh, st, data⟩ := by
  have hm : (0 : Int) < ((itemsizeD dt : Nat) : Int) := by
    exact_mod_cast itemsizeD_pos dt
  have hst :
      (st.map (fun s => Int.fdiv s ((itemsizeD dt : Nat) : Int))).map
          (fun s => s * ((itemsizeD dt : Nat) : Int)) = st :=
    map_fdiv_mul_cancel _ hm st hdvd
  dsimp only [rankedRoundTrip, get_ranked_memref_descriptor]
  rw [hc]
  dsimp only
  rw [if_neg (by omega)]
  dsimp only [ranked_memref_to_numpy, move_aligned_ptr_by_offset]
  rw [hn]
  dsimp only
  simp only [hs]
  rw [hst]
  simp only [zero_mul, add_zero]
  exact hback

/-- C1 (amended): for every supported logical element type and every
array of rank at least 1 whose byte strides are all multiples of the
element size, the ranked reverse conversion applied to the ranked
forward conversion reproduces the array exactly — same dtype, shape,
byte strides and base address, hence the same element values at every
index.  (As stated over rank 0 the claim fails: the reverse path
raises AttributeError on the zero-rank descriptor; and a byte stride
that is not a multiple of the element size is floor-divided and not
recovered.) -/
theorem ranked_round_trip_identity (mlAvail : Bool) (a : NDArray)
    (h1 : 1 ≤ a.shape.length)
    (hsupp : isLogicalSupported mlAvail a.dtype = true)
    (hdvd : ∀ s ∈ a.strides, ((itemsizeD a.dtype : Nat) : Int) ∣ s) :
    rankedRoundTrip mlAvail a = .ok a := by
  obtain ⟨dt, sh, st, data⟩ := a
  cases dt with
  | complex128 =>
    exact roundTrip_case mlAvail .complex128 .structC128 .C128 sh st data
      h1 rfl rfl rfl hdvd rfl
  | complex64 =>
    exact roundTrip_case mlAvail .complex64 .structC64 .C64 sh st data
      h1 rfl rfl rfl hdvd rfl
  | float16 =>
    exact roundTrip_case mlAvail .float16 .structF16 .F16 sh st data
      h1 rfl rfl rfl hdvd rfl
  | bfloat16 =>
    have hm : mlAvail = true := by simpa [isLogicalSupported] using hsupp
    subst hm
    exact roundTrip_case true .bfloat16 .structBF16 .BF16 sh st data
      h1 rfl rfl rfl hdvd rfl
  | float8_e5m2 =>
    have hm : mlAvail = true := by simpa [isLogicalSupported] using hsupp
    subst hm
    exact roundTrip_case true .float8_e5m2 .structF8E5M2 .F8E5M2 sh st data
      h1 rfl rfl rfl hdvd rfl
  | float64 =>
    exact roundTrip_case mlAvail .float64 .float64 .c_double sh st data
      h1 rfl rfl rfl hdvd rfl
  | float32 =>
    exact roundTrip_case mlAvail .float32 .float32 .c_float sh st data
      h1 rfl rfl rfl hdvd rfl
  | int64 =>
    exact roundTrip_case mlAvail .int64 .int64 .c_long sh st data
      h1 rfl rfl rfl hdvd rfl
  | int32 =>
    exact roundTrip_case mlAvail .int32 .int32 .c_int sh st data
      h1 rfl rfl rfl hdvd rfl
  | int16 =>
    exact roundTrip_case mlAvail .int16 .int16 .c_short sh st data
      h1 rfl rfl rfl hdvd rfl
  | int8 =>
    exact roundTrip_case mlAvail .int8 .int8 .c_byte sh st data
      h1 rfl rfl rfl hdvd rfl
  | structC128 => simp [isLogicalSupported] at hsupp
  | structC64 => simp [isLogicalSupported] at hsupp
  | structF16 => simp [isLogicalSupported] at hsupp
  | structBF16 => simp [isLogicalSupported] at hsupp
  | structF8E5M2 => simp [isLogicalSupported] at hsupp

/-- C1 counterexample: the round trip as claimed for arbitrary rank
r ≥ 0 fails at rank 0 (AttributeError instead of a 0-d view), and a
rank-1 float64 array with byte stride 4 (built with as_strided) comes
back with byte stride 0 instead of 4. -/
theorem ranked_round_trip_cex :
    rankedRoundTrip true ⟨.float64, [], [], 0⟩ =
        .error (.attributeError "shape")
    ∧ rankedRoundTrip true ⟨.float64, [2], [4], 0⟩ =
        .ok ⟨.float64, [2], [0], 0⟩
    ∧ (4 : Int) ≠ 0 := by
  decide

/-- C1 witness: concrete 2x3 row-major float64 array. -/
theorem ranked_round_trip_identity_witness :
    rankedRoundTrip true ⟨.float64, [2, 3], [24, 8], 1024⟩ =
      .ok ⟨.float64, [2, 3], [24, 8], 1024⟩ :=
  ranked_round_trip_identity true ⟨.float64, [2, 3], [24, 8], 1024⟩
    (by decide) (by decide) (by decide)

/-- C2 (amended): the element-unit strides stored by the forward
conversion, multiplied back by the element size, equal the original
byte strides for every dimension whose byte stride is a multiple of
the element size (the code floor-divides, so a non-multiple stride is
rounded down and the product differs). -/
theorem stride_unit_inversion (mlAvail : Bool) (a : NDArray)
    (ctp : CTy) (r : Nat) (al ag off : Int) (sh st : List Int)
    (hdvd : ∀ s ∈ a.strides, ((itemsizeD a.dtype : Nat) : Int) ∣ s)
    (hg : get_ranked_memref_descriptor mlAvail a =
      .ok (.nd ctp r al ag off sh st)) :
    st.map (fun s => s * ((itemsizeD a.dtype : Nat) : Int)) = a.strides := by
  have hm : (0 : Int) < ((itemsizeD a.dtype : Nat) : Int) := by
    exact_mod_cast itemsizeD_pos a.dtype
  dsimp only [get_ranked_memref_descriptor] at hg
  cases hc : as_ctype mlAvail a.dtype with
  | error e => rw [hc] at hg; exact absurd hg (by simp)
  | ok c =>
    rw [hc] at hg
    dsimp only at hg
    by_cases h0 : a.shape.length = 0
    · rw [if_pos h0] at hg
      exact absurd hg (by simp)
    · rw [if_neg h0] at hg
      simp only [Except.ok.injEq, MemRef.nd.injEq] at hg
      obtain ⟨-, -, -, -, -, -, hgst⟩ := hg
      subst hgst
      exact map_fdiv_mul_cancel _ hm a.strides hdvd

/-- C2 counterexample: a float64 array with byte stride 4 stores
element-unit stride 4 // 8 = 0, and 0 * 8 = 0 differs from 4. -/
theorem stride_unit_inversion_cex :
    get_ranked_memref_descriptor true ⟨.float64, [2], [4], 0⟩ =
      .ok (.nd .c_double 1 0 0 0 [2] [0])
    ∧ (0 : Int) * 8 ≠ 4 := by
  decide

/-- C2 witness: byte strides (24, 8) of a 2x3 float64 array store as
(3, 1) and multiply back to (24, 8). -/
theorem stride_unit_inversion_witness :
    ([3, 1] : List Int).map
        (fun s => s * ((itemsizeD NpDtype.float64 : Nat) : Int)) = [24, 8] :=
  stride_unit_inversion true ⟨.float64, [2, 3], [24, 8], 512⟩
    .c_double 2 512 512 0 [2, 3] [3, 1] (by decide) (by decide)

/-- C3: moving an aligned pointer by an offset lands exactly
offset * sizeof(pointee) bytes past the original address, and keeps
the pointer type. -/
theorem move_aligned_ptr_offset_scaling (p : CPtr) (k : Int) :
    (move_aligned_ptr_by_offset p k).addr =
        p.addr + k * (sizeofC p.ctp : Int)
    ∧ (move_aligned_ptr_by_offset p k).ctp = p.ctp :=
  ⟨rfl, rfl⟩

/-- C4 (amended): the forward conversion on a 0-dimensional array
produces a zero-rank descriptor (fields allocated / aligned / offset
only, offset 0, both pointers at the buffer address), but the ranked
reverse conversion on that zero-rank descriptor raises AttributeError
when it reads the non-existent shape field, instead of reconstructing
a 0-dimensional view (only the unranked reverse path can rebuild a
0-d view). -/
theorem rank0_path (mlAvail : Bool) (a : NDArray) (ctp : CTy)
    (h0 : a.shape.length = 0)
    (hc : as_ctype mlAvail a.dtype = .ok ctp) :
    get_ranked_memref_descriptor mlAvail a = .ok (.zeroD ctp a.data a.data 0)
    ∧ make_zero_d_memref_descriptor ctp =
        [("allocated", .c_longlong), ("aligned", .ptr ctp),
         ("offset", .c_longlong)]
    ∧ ranked_memref_to_numpy mlAvail (.zeroD ctp a.data a.data 0) =
        .error (.attributeError "shape") := by
  refine ⟨?_, rfl, rfl⟩
  dsimp only [get_ranked_memref_descriptor]
  rw [hc]
  dsimp only
  rw [if_pos h0]

/-- C4 counterexample: the reverse conversion on the zero-rank
descriptor of a concrete 0-d float64 array errors instead of
producing a 0-dimensional view. -/
theorem rank0_path_cex :
    rankedRoundTrip true ⟨.float64, [], [], 320⟩ =
      .error (.attributeError "shape") := by
  decide

/-- C4 witness: concrete 0-d float64 array at address 512. -/
theorem rank0_path_witness :
    get_ranked_memref_descriptor true ⟨.float64, [], [], 512⟩ =
      .ok (.zeroD .c_double 512 512 0)
    ∧ make_zero_d_memref_descriptor .c_double =
        [("allocated", .c_longlong), ("aligned", .ptr .c_double),
         ("offset", .c_longlong)]
    ∧ ranked_memref_to_numpy true (.zeroD .c_double 512 512 0) =
        .error (.attributeError "shape") :=
  rank0_path true ⟨.float64, [], [], 512⟩ .c_double (by decide) (by decide)

/-- C5 (amended): with the ml_dtypes registry unavailable, the
reverse mapping on a BF16- or F8E5M2-layout array raises the
distinguished install-ml_dtypes assertion (never returning a
raw-integer view), but the forward mapping for bfloat16/float8_e5m2
falls through to the generic native mapping and raises
NotImplementedError, not the distinguished error. -/
theorem missing_registry_failure (a b : NDArray)
    (ha : a.dtype = .structBF16) (hb : b.dtype = .structF8E5M2) :
    to_numpy false a = .error (.assertionError bf16InstallMsg)
    ∧ to_numpy false b = .error (.assertionError f8InstallMsg)
    ∧ as_ctype false .bfloat16 = .error .notImplementedError
    ∧ as_ctype false .float8_e5m2 = .error .notImplementedError := by
  refine ⟨?_, ?_, rfl, rfl⟩
  · unfold to_numpy
    rw [ha]
    rfl
  · unfold to_numpy
    rw [hb]
    rfl

/-- C5 counterexample: the forward mapping for bfloat16 without the
registry raises NotImplementedError, which is not the distinguished
install-ml_dtypes assertion; same for float8_e5m2. -/
theorem missing_registry_cex :
    as_ctype false .bfloat16 = .error .notImplementedError
    ∧ PyErr.notImplementedError ≠ .assertionError bf16InstallMsg
    ∧ as_ctype false .float8_e5m2 = .error .notImplementedError
    ∧ PyErr.notImplementedError ≠ .assertionError f8InstallMsg := by
  decide

/-- C5 witness: concrete BF16- and F8E5M2-layout arrays. -/
theorem missing_registry_failure_witness :
    to_numpy false ⟨.structBF16, [4], [2], 64⟩ =
        .error (.assertionError bf16InstallMsg)
    ∧ to_numpy false ⟨.structF8E5M2, [4], [1], 64⟩ =
        .error (.assertionError f8InstallMsg)
    ∧ as_ctype false .bfloat16 = .error .notImplementedError
    ∧ as_ctype false .float8_e5m2 = .error .notImplementedError :=
  missing_registry_failure ⟨.structBF16, [4], [2], 64⟩
    ⟨.structF8E5M2, [4], [1], 64⟩ rfl rfl

/-- C6: for every rank at least 1 and element layout, the ranked
descriptor struct has exactly the fields allocated (pointer-width
integer), aligned (pointer to the element layout), offset
(pointer-width signed integer), shape and strides (fixed-length
arrays of rank pointer-width signed integers), in this order and
with these widths (8 bytes per word on a 64-bit platform). -/
theorem descriptor_abi_layout (rank : Nat) (dtype : CTy) (h : 1 ≤ rank) :
    make_nd_memref_descriptor rank dtype =
      [("allocated", .c_longlong), ("aligned", .ptr dtype),
       ("offset", .c_longlong), ("shape", .carray .c_longlong rank),
       ("strides", .carray .c_longlong rank)]
    ∧ sizeofC .c_longlong = 8
    ∧ sizeofC (.ptr dtype) = 8
    ∧ sizeofC (.carray .c_longlong rank) = rank * 8 :=
  ⟨rfl, rfl, rfl, rfl⟩

/-- C6 witness: rank 2 with the complex-double element layout. -/
theorem descriptor_abi_layout_witness :
    make_nd_memref_descriptor 2 CTy.C128 =
      [("allocated", .c_longlong), ("aligned", .ptr .C128),
       ("offset", .c_longlong), ("shape", .carray .c_longlong 2),
       ("strides", .carray .c_longlong 2)]
    ∧ sizeofC .c_longlong = 8
    ∧ sizeofC (.ptr .C128) = 8
    ∧ sizeofC (.carray .c_longlong 2) = 2 * 8 :=
  descriptor_abi_layout 2 .C128 (by decide)

/-- C7 (amended): for every array of rank at least 1 whose address
and fields fit their 64-bit descriptor slots, the unranked reverse
conversion applied to the unranked forward conversion, at the
array's own logical dtype, returns exactly what the ranked reverse
conversion applied to the ranked forward conversion returns.  (As
stated over every array the claim fails at rank 0: the unranked path
reads the zero-rank descriptor through the rank-0 layout and
succeeds, while the ranked path raises AttributeError.) -/
theorem unranked_wrapper_consistency (mlAvail : Bool) (a : NDArray)
    (h1 : 1 ≤ a.shape.length)
    (hlen : a.strides.length = a.shape.length)
    (hdata : 0 ≤ a.data ∧ a.data < 9223372036854775808)
    (hsh : ∀ s ∈ a.shape, inI64 s)
    (hst : ∀ s ∈ a.strides, inI64 s) :
    unrankedRoundTrip mlAvail a a.dtype = rankedRoundTrip mlAvail a := by
  cases hc : as_ctype mlAvail a.dtype with
  | error e =>
    dsimp only [unrankedRoundTrip, rankedRoundTrip,
      get_unranked_memref_descriptor, get_ranked_memref_descriptor]
    rw [hc]
  | ok ctp =>
    have hm : (0 : Int) < ((itemsizeD a.dtype : Nat) : Int) := by
      exact_mod_cast itemsizeD_pos a.dtype
    have hio : ∀ s ∈ a.strides.map
        (fun s => Int.fdiv s ((itemsizeD a.dtype : Nat) : Int)), inI64 s := by
      intro s hs
      obtain ⟨x, hx, rfl⟩ := List.mem_map.mp hs
      exact fdiv_inI64 _ x hm (hst x hx)
    have hrd := readNdFields_nd ctp a.shape.length a.data a.data 0 a.shape
      (a.strides.map (fun s => Int.fdiv s ((itemsizeD a.dtype : Nat) : Int)))
      rfl (by simp [hlen]) ⟨by omega, by omega⟩ ⟨hdata.1, by omega⟩
      (by constructor <;> omega) hsh hio
    dsimp only [unrankedRoundTrip, rankedRoundTrip,
      get_unranked_memref_descriptor, get_ranked_memref_descriptor]
    rw [hc]
    dsimp only
    rw [if_neg (by omega)]
    dsimp only [unranked_memref_to_numpy]
    rw [hc]
    dsimp only [Int.toNat_ofNat]
    rw [hrd]
    dsimp only [ranked_memref_to_numpy]

/-- C7 counterexample: at rank 0 the two paths disagree — the
unranked reverse conversion rebuilds the 0-d view while the ranked
reverse conversion raises AttributeError. -/
theorem unranked_consistency_cex :
    unrankedRoundTrip true ⟨.float64, [], [], 256⟩ .float64 =
        .ok ⟨.float64, [], [], 256⟩
    ∧ rankedRoundTrip true ⟨.float64, [], [], 256⟩ =
        .error (.attributeError "shape")
    ∧ (Except.ok (⟨.float64, [], [], 256⟩ : NDArray) ≠
        (.error (.attributeError "shape") : Except PyErr NDArray)) := by
  decide

/-- C7 witness: concrete rank-1 int32 array with a negative
stride. -/
theorem unranked_wrapper_consistency_witness :
    unrankedRoundTrip true ⟨.int32, [4], [-4], 128⟩ .int32 =
      rankedRoundTrip true ⟨.int32, [4], [-4], 128⟩ :=
  unranked_wrapper_consistency true ⟨.int32, [4], [-4], 128⟩
    (by decide) (by decide) (by decide) (by decide) (by decide)

/-- C8: for every array of rank at least 1 whose dtype the registry
maps, the forward conversion fills the ranked descriptor with
allocated = aligned = buffer base address, offset = 0, shape equal to
the array's extents in order (and strides floor-divided into element
units). -/
theorem forward_conversion_postconditions (mlAvail : Bool) (a : NDArray)
    (ctp : CTy)
    (h1 : 1 ≤ a.shape.length)
    (hc : as_ctype mlAvail a.dtype = .ok ctp) :
    get_ranked_memref_descriptor mlAvail a =
      .ok (.nd ctp a.shape.length a.data a.data 0 a.shape
        (a.strides.map (fun s => Int.fdiv s ((itemsizeD a.dtype : Nat) : Int)))) := by
  dsimp only [get_ranked_memref_descriptor]
  rw [hc]
  dsimp only
  rw [if_neg (by omega)]

/-- C8 witness: concrete 2x3 complex128 array. -/
theorem forward_conversion_postconditions_witness :
    get_ranked_memref_descriptor true ⟨.complex128, [2, 3], [48, 16], 4096⟩ =
      .ok (.nd .C128 2 4096 4096 0 [2, 3] [3, 1]) :=
  forward_conversion_postconditions true ⟨.complex128, [2, 3], [48, 16], 4096⟩
    .C128 (by decide) (by decide)

/-- C9: the layout builders are pure type constructors — equal
(rank, element layout) arguments produce equal struct types, with
identical field names, order and widths. -/
theorem layout_builder_idempotent (r₁ r₂ : Nat) (d₁ d₂ : CTy)
    (hr : r₁ = r₂) (hd : d₁ = d₂) :
    make_nd_memref_descriptor r₁ d₁ = make_nd_memref_descriptor r₂ d₂
    ∧ make_zero_d_memref_descriptor d₁ = make_zero_d_memref_descriptor d₂ := by
  subst hr
  subst hd
  exact ⟨rfl, rfl⟩

/-- C9 witness: two calls at rank 3 with the F16 layout. -/
theorem layout_builder_idempotent_witness :
    make_nd_memref_descriptor 3 CTy.F16 = make_nd_memref_descriptor 3 CTy.F16
    ∧ make_zero_d_memref_descriptor CTy.F16 =
        make_zero_d_memref_descriptor CTy.F16 :=
  layout_builder_idempotent 3 3 .F16 .F16 rfl rfl

/-- C10: the zero-rank struct is byte-for-byte the rank-0 ranked
struct — same first three fields at offsets 0, 8, 16, the length-0
shape/strides arrays occupy zero bytes at offset 24, both structs
have size 24 — and reading a zero-rank descriptor's words through
the rank-0 ranked layout (as the unranked reverse path's pointer
cast does) recovers allocated, aligned and offset exactly. -/
theorem zero_rank_layout_coincidence (d : CTy) (a al off : Int)
    (ha : inI64 a) (hal : 0 ≤ al ∧ al < 18446744073709551616)
    (hoff : inI64 off) :
    structLayout (make_zero_d_memref_descriptor d) =
      (structLayout (make_nd_memref_descriptor 0 d)).take 3
    ∧ (structLayout (make_nd_memref_descriptor 0 d)).drop 3 =
        [("shape", 24, .carray .c_longlong 0),
         ("strides", 24, .carray .c_longlong 0)]
    ∧ sizeofC (.carray .c_longlong 0) = 0
    ∧ structSize (make_zero_d_memref_descriptor d) =
        structSize (make_nd_memref_descriptor 0 d)
    ∧ readNdFields 0 (descriptorWords (.zeroD d a al off)) =
        some (a, al, off, [], []) := by
  refine ⟨rfl, ?_, rfl, ?_, ?_⟩
  · simp [structLayout, structLayoutAux, make_nd_memref_descriptor, alignTo,
      alignofC, sizeofC]
  · simp [structSize, structEnd, structAlign, make_nd_memref_descriptor,
      make_zero_d_memref_descriptor, alignTo, alignofC, sizeofC]
  · simp only [descriptorWords, readNdFields]
    rw [if_pos (by simp)]
    simp only [List.getD_cons_zero, List.getD_cons_succ]
    rw [fromSigned_u64 a ha, fromSigned_u64 off hoff, u64_cast al hal.1 hal.2]
    rfl

/-- C10 witness: a zero-rank descriptor with a negative allocated
value read back through the rank-0 layout. -/
theorem zero_rank_layout_coincidence_witness :
    structLayout (make_zero_d_memref_descriptor .c_float) =
      (structLayout (make_nd_memref_descriptor 0 .c_float)).take 3
    ∧ (structLayout (make_nd_memref_descriptor 0 .c_float)).drop 3 =
        [("shape", 24, .carray .c_longlong 0),
         ("strides", 24, .carray .c_longlong 0)]
    ∧ sizeofC (.carray .c_longlong 0) = 0
    ∧ structSize (make_zero_d_memref_descriptor .c_float) =
        structSize (make_nd_memref_descriptor 0 .c_float)
    ∧ readNdFields 0 (descriptorWords (.zeroD .c_float (-5) 77 3)) =
        some (-5, 77, 3, [], []) :=
  zero_rank_layout_coincidence .c_float (-5) 77 3
    (by decide) (by decide) (by decide)
